import Mathlib

/-!
Verification of the data-analysis agent's tool layer
(`src/dataanalysis_agent/tools.py`).

The three tools — `load_csv`, `load_excel` and `python_repl` — are embedded
shallowly as pure Lean functions.  External effects that the Python code
delegates to collaborators (the filesystem, the pandas parsers, the executed
snippet itself, the random filename generator, `fig.savefig`) are passed in as
explicit oracle arguments, so a theorem quantified over those oracles holds for
every behaviour of the collaborator.  The tool's own control flow — the
precondition check, the font setup, the last-line heuristic, the figure-saving
loop, the output assembly, the exception handlers and the `finally` cleanup —
is translated line by line from the source.
-/

/-- The Loaded Table: a pandas `DataFrame`, modelled as named columns with
per-column dtype strings and integer-cell rows (cell contents never influence
the control flow under verification). -/
structure DataFrame where
  cols : List String
  dtypes : List String
  rows : List (List Int)
  deriving Repr, DecidableEq

/-- `pandas.DataFrame.to_html`: an HTML `<table>` rendering. -/
def DataFrame.to_html (d : DataFrame) : String :=
  "<table border=\"1\" class=\"dataframe\">"
    ++ "<thead><tr>"
    ++ String.intercalate "" (d.cols.map (fun c => "<th>" ++ c ++ "</th>"))
    ++ "</tr></thead><tbody>"
    ++ String.intercalate "" (d.rows.map (fun r =>
        "<tr>" ++ String.intercalate "" (r.map (fun v => "<td>" ++ toString v ++ "</td>")) ++ "</tr>"))
    ++ "</tbody></table>"

/-- The plain textual repr of a `DataFrame` (what `print(result)` would show). -/
def DataFrame.reprPlain (d : DataFrame) : String :=
  String.intercalate "  " d.cols ++ "\n"
    ++ String.intercalate "\n" (d.rows.map (fun r => String.intercalate "  " (r.map toString)))

/-- `pandas.Series.to_string` over the dtypes column of the info block. -/
def DataFrame.dtypesToString (d : DataFrame) : String :=
  String.intercalate "\n" (List.zipWith (fun c t => c ++ "    " ++ t) d.cols d.dtypes)

/-- Matplotlib's process-wide configuration plus the set of open figures
(`plt.rcParams`, the backend, and `plt.get_fignums()`). -/
structure MplState where
  backend : String
  fontFamily : String
  unicodeMinus : Bool
  openFigs : List Nat
  deriving Repr, DecidableEq

/-- The process state the tools read and write: the global `df` binding, the
font list `matplotlib.font_manager` reports, the matplotlib state, the set of
files existing on the filesystem, the contents of the shared plot directory
`/tmp/dataanalysis_plots`, and the text printed to the process's real stdout
(output produced outside the capture scope). -/
structure World where
  globalDf : Option DataFrame
  availableFonts : List String
  mpl : MplState
  fs : List String
  plotsDir : List String
  realStdout : String
  deriving Repr, DecidableEq

/-- A value produced by evaluating the trailing expression. -/
inductive PyValue where
  | pyNone
  | pyDF (d : DataFrame)
  | pyStr (s : String)
  | pyInt (n : Int)
  deriving Repr, DecidableEq

/-- What `print(result)` writes for a non-`DataFrame` value. -/
def pyRepr : PyValue → String
  | .pyNone => "None"
  | .pyDF d => d.reprPlain
  | .pyStr s => s
  | .pyInt n => toString n

/-- Outcome of `exec(code, local_namespace)`: either it returns normally after
printing `printed` and opening the figures `figs`, or it raises with message
`msg` having already printed `printed` and opened `figs` before the fault.
The namespace handed to `exec` is a fresh per-call dict, so `exec` has no way
to rebind the module-global `df`; accordingly the oracle reports only printed
text, opened figures and the fault, mirroring the source where
`local_namespace` is discarded after the call. -/
inductive ExecOutcome where
  | ok (printed : String) (figs : List Nat)
  | fault (msg : String) (printed : String) (figs : List Nat)
  deriving Repr, DecidableEq

/-- The fixed priority list `korean_fonts` from the source. -/
def korean_fonts : List String :=
  ["AppleGothic", "Apple SD Gothic Neo", "NanumGothic", "Malgun Gothic",
   "NanumBarunGothic", "UnDotum"]

/-- `for font in korean_fonts: if font in available_fonts: ...` — the first
listed font that is available. -/
def pickFont (avail : List String) : Option String :=
  korean_fonts.find? (fun f => avail.contains f)

/-- The warning printed when no Korean font is available. -/
def koreanFontWarning : String :=
  "Warning: No Korean font found. Korean text may not display correctly."

/-- The fixed result when no table is loaded. -/
def noTableMsg : String :=
  "Error: No dataframe loaded. Please load a CSV file first using the load_csv tool."

/-- The fixed result when execution produced no output. -/
def noOutputMsg : String :=
  "Code executed successfully (no output produced)."

/-- Python `str.strip()` over the character list: drop whitespace from both
ends. -/
def charTrim (cs : List Char) : List Char :=
  ((cs.dropWhile Char.isWhitespace).reverse.dropWhile Char.isWhitespace).reverse

/-- Python `str.split(c)` for a one-character separator. -/
def splitOnChar (c : Char) : List Char → List (List Char)
  | [] => [[]]
  | a :: rest =>
    let r := splitOnChar c rest
    if a == c then [] :: r
    else
      match r with
      | [] => [[a]]
      | h :: t => (a :: h) :: t

/-- Python `str.lower()`. -/
def strLower (s : String) : String :=
  String.mk (s.data.map Char.toLower)

/-- Python `str.startswith(pat)` over the character lists. -/
def listStartsWith : List Char → List Char → Bool
  | _, [] => true
  | [], _ :: _ => false
  | a :: as, b :: bs => a == b && listStartsWith as bs

/-- Substring occurrence over the character lists. -/
def listContainsSub : List Char → List Char → Bool
  | [], pat => pat.isEmpty
  | s@(_ :: rest), pat => listStartsWith s pat || listContainsSub rest pat

/-- Python's `pat in s` on strings. -/
def containsSub (s pat : String) : Bool :=
  listContainsSub s.data pat.data

/-- The keyword list of the last-line heuristic. -/
def stmtKeywords : List String :=
  ["import", "from", "def", "class", "if", "for", "while", "with", "try"]

/-- `code.strip().split('\n')[-1].strip()`: stripping the whole snippet first
makes the final list element the last line holding any non-whitespace. -/
def lastNonEmptyLine (code : String) : String :=
  String.mk (charTrim ((splitOnChar '\n' (charTrim code.data)).getLastD []))

/-- The guard of the trailing auto-evaluation: the last non-empty line is
non-empty, starts with none of the statement keywords, and holds no `=`. -/
def shouldAutoEval (code : String) : Bool :=
  let l := lastNonEmptyLine code
  !(stmtKeywords.any (fun kw => listStartsWith l.data kw.data))
    && !(l.data.contains '=') && !(l == "")

/-- The markdown image reference built for the figure at position `idx`
carrying filename `name`. -/
def mkRef (idx : Nat) (name : String) : String :=
  "![Visualization " ++ toString (idx + 1) ++ "](http://localhost:8001/" ++ name ++ ")"

/-- The figure-saving loop.  `g idx` is the generated
`plot_<timestamp>_<uuid>.png` filename for loop position `idx` (timestamp and
random suffix are the oracle's choice); `s idx` is whether `fig.savefig`
succeeds there.  Returns the reference list (or the first fault) and the plot
directory contents after the loop; a faulting save writes no file and aborts
the loop, as the raised exception leaves the `for`. -/
def saveLoop (g : Nat → String) (s : Nat → Except String Unit) :
    List Nat → Nat → List String → Except String (List String) × List String
  | [], _, dir => (.ok [], dir)
  | _ :: rest, idx, dir =>
    match s idx with
    | .error e => (.error e, dir)
    | .ok _ =>
      let name := g idx
      match saveLoop g s rest (idx + 1) (dir ++ [name]) with
      | (.ok refs, dir2) => (.ok (mkRef idx name :: refs), dir2)
      | (.error e, dir2) => (.error e, dir2)

/-- The matplotlib preamble: `plt.switch_backend('Agg')`, the Korean font
selection, `axes.unicode_minus = False` and the seaborn theme.  The warning
print happens before stdout is redirected, hence it lands in `realStdout`. -/
def setupFonts (w : World) : World :=
  let fontOpt := pickFont w.availableFonts
  { w with
    mpl :=
      { backend := "Agg",
        fontFamily := fontOpt.getD "DejaVu Sans",
        unicodeMinus := false,
        openFigs := w.mpl.openFigs },
    realStdout := w.realStdout ++ (if fontOpt.isNone then koreanFontWarning ++ "\n" else "") }

/-- The text the trailing auto-evaluation appends to the buffer: nothing when
the heuristic declines, the evaluation faults (`except: pass`) or the value is
`None`; the HTML table for a `DataFrame`; the printed repr otherwise. -/
def autoEvalOut (code : String) (evalR : Except String PyValue) : String :=
  if shouldAutoEval code then
    match evalR with
    | .ok .pyNone => ""
    | .ok (.pyDF d) => d.to_html ++ "\n"
    | .ok v => pyRepr v ++ "\n"
    | .error _ => ""
  else ""

/-- The success path after `exec` returned normally: trailing auto-evaluation,
figure saving, sentinel wrapping, empty-output substitution, and the `finally`
cleanup of the figures. -/
def replSuccess (w1 : World) (code printed : String) (figs : List Nat)
    (evalR : Except String PyValue) (g : Nat → String)
    (s : Nat → Except String Unit) : String × World :=
  let output := printed ++ autoEvalOut code evalR
  let figsOpen := w1.mpl.openFigs ++ figs
  match (if figsOpen.isEmpty then (Except.ok [], w1.plotsDir)
         else saveLoop g s figsOpen 0 w1.plotsDir) with
  | (.error e, dir2) =>
    -- a savefig fault reaches the outer handler; files already written stay
    ("Error executing code: " ++ e,
     { w1 with plotsDir := dir2, mpl := { w1.mpl with openFigs := [] } })
  | (.ok refs, dir2) =>
    let output2 :=
      if refs.isEmpty then output
      else
        (if output = "" then "" else output ++ "\n\n")
          ++ "<!-- VISUALIZATION OUTPUT -->\n"
          ++ String.intercalate "\n" refs
          ++ "\n<!-- END VISUALIZATION OUTPUT -->"
    ((if output2 = "" then noOutputMsg else output2),
     { w1 with plotsDir := dir2, mpl := { w1.mpl with openFigs := [] } })

/-- `python_repl(code)`.  Oracles: `ex` is the behaviour of
`exec(code, local_namespace)`, `evalR` the behaviour of `eval(last_line,
local_namespace)` (consulted only when the heuristic fires), `g` the filename
generator and `s` the per-figure `savefig` outcome.  Returns the textual
result and the world after the call. -/
def python_repl (w : World) (code : String) (ex : ExecOutcome)
    (evalR : Except String PyValue) (g : Nat → String)
    (s : Nat → Except String Unit) : String × World :=
  match w.globalDf with
  | none => (noTableMsg, w)
  | some _ =>
    let w1 := setupFonts w
    match ex with
    | .fault msg _ _ =>
      -- except Exception as e: return error string; finally: plt.close('all').
      -- The buffer filled before the fault is dropped with output_buffer.
      ("Error executing code: " ++ msg,
       { w1 with mpl := { w1.mpl with openFigs := [] } })
    | .ok printed figs => replSuccess w1 code printed figs evalR g s

/-! ### The load operations -/

/-- The exceptions a pandas load can raise, as the Python handlers
distinguish them: the `ValueError` pandas raises for a missing worksheet
(whose message is `Worksheet named '<s>' not found`), any other `ValueError`,
and any non-`ValueError` exception. -/
inductive LoadError where
  | worksheetNotFound (sheet : String)
  | valueError (msg : String)
  | other (msg : String)
  deriving Repr, DecidableEq

/-- `str(e)` for a load exception. -/
def LoadError.toMsg : LoadError → String
  | .worksheetNotFound s => "Worksheet named '" ++ s ++ "' not found"
  | .valueError m => m
  | .other m => m

/-- The `except ValueError` guard `"Worksheet" in str(e)` — a non-`ValueError`
never reaches that handler. -/
def LoadError.isWorksheetValueError : LoadError → Bool
  | .worksheetNotFound _ => true
  | .valueError m => containsSub m "Worksheet"
  | .other _ => false

/-- `PurePath.name`: the final non-empty path component. -/
def pathName (p : String) : List Char :=
  ((splitOnChar '/' p.data).filter (fun c => !c.isEmpty)).getLastD []

/-- `PurePath.suffix`: the extension from the last dot of the name, empty when
that dot is the first or last character of the name. -/
def pathSuffix (p : String) : String :=
  let name := pathName p
  let parts := splitOnChar '.' name
  match parts with
  | [] => ""
  | [_] => ""
  | _ =>
    let lastPart := parts.getLastD []
    if !lastPart.isEmpty ∧ lastPart.length + 2 ≤ name.length then
      String.mk ('.' :: lastPart)
    else ""

/-- The extensions `load_excel` accepts. -/
def excelExts : List String := [".xlsx", ".xls", ".xlsm", ".xlsb"]

/-- The shared info block of both load summaries. -/
def dfInfoBody (d : DataFrame) : String :=
  "Shape: " ++ toString d.rows.length ++ " rows × " ++ toString d.cols.length ++ " columns\n"
    ++ "Columns: " ++ String.intercalate ", " d.cols ++ "\n"
    ++ "Data types:\n" ++ d.dtypesToString

/-- `load_csv(file_path)`.  `parse` is the oracle for `pd.read_csv`:
its outcome when the file exists.  Returns the textual result and the world
after the call. -/
def load_csv (w : World) (path : String) (parse : Except String DataFrame) :
    String × World :=
  if path ∉ w.fs then
    ("Error: File '" ++ path ++ "' not found.", w)
  else
    match parse with
    | .error e => ("Error loading CSV file: " ++ e, w)
    | .ok d =>
      ("Successfully loaded CSV file '" ++ path ++ "'\n" ++ dfInfoBody d,
       { w with globalDf := some d })

/-- The behaviour of pandas on one Excel file: its sheet names (what
`pd.ExcelFile(path).sheet_names` reports), the outcome of
`pd.read_excel(path, sheet_name=s)` for a sheet that exists, and the outcome
of `pd.read_excel(path)` with no sheet argument. -/
structure ExcelData where
  sheetNames : List String
  parseSheet : String → Except LoadError DataFrame
  parseFirst : Except LoadError DataFrame

/-- `pd.read_excel` with an explicit sheet: pandas raises the worksheet
`ValueError` when the sheet is absent. -/
def ExcelData.readSheet (e : ExcelData) (s : String) : Except LoadError DataFrame :=
  if s ∈ e.sheetNames then e.parseSheet s else .error (.worksheetNotFound s)

/-- The parse the source selects: `if sheet_name:` is Python truthiness, so an
empty sheet string falls back to the first sheet. -/
def excelParseArg (e : ExcelData) (sheetName : Option String) : Except LoadError DataFrame :=
  match sheetName with
  | some s => if s ≠ "" then e.readSheet s else e.parseFirst
  | none => e.parseFirst

/-- `load_excel(file_path, sheet_name)`.  The nested `pd.ExcelFile` reopening
in the worksheet handler is modelled as succeeding with `e.sheetNames`: a
worksheet `ValueError` presupposes a readable workbook.  Returns the textual
result and the world after the call. -/
def load_excel (w : World) (path : String) (sheetName : Option String)
    (e : ExcelData) : String × World :=
  if path ∉ w.fs then
    ("Error: File '" ++ path ++ "' not found.", w)
  else if strLower (pathSuffix path) ∉ excelExts then
    ("Error: File '" ++ path ++ "' is not an Excel file. Supported extensions: .xlsx, .xls, .xlsm, .xlsb", w)
  else
    let explicit : Bool := match sheetName with | some s => s ≠ "" | none => false
    match excelParseArg e sheetName with
    | .ok d =>
      let sheetInfo : String :=
        if explicit then " from sheet '" ++ sheetName.getD "" ++ "'"
        else
          let base := " from sheet '" ++ e.sheetNames.headD "" ++ "' (first sheet)"
          if 1 < e.sheetNames.length then
            base ++ "\nAvailable sheets: " ++ String.intercalate ", " e.sheetNames
          else base
      ("Successfully loaded Excel file '" ++ path ++ "'" ++ sheetInfo ++ "\n" ++ dfInfoBody d,
       { w with globalDf := some d })
    | .error err =>
      if err.isWorksheetValueError then
        ("Error: " ++ err.toMsg ++ "\nAvailable sheets: " ++ String.intercalate ", " e.sheetNames, w)
      else
        ("Error loading Excel file: " ++ err.toMsg, w)

/-! ### Claim theorems -/

/-- C1: with no table loaded, `python_repl` returns the fixed "no table
loaded" result for every code string and every collaborator behaviour, and
the world — in particular the shared plot directory — is unchanged, so no
file is written. -/
theorem c1_no_table (w : World) (code : String) (ex : ExecOutcome)
    (evalR : Except String PyValue) (g : Nat → String) (s : Nat → Except String Unit)
    (h : w.globalDf = none) :
    python_repl w code ex evalR g s = (noTableMsg, w) := by
  simp only [python_repl, h]

/-- Witness for C1 at a concrete empty world and snippet. -/
theorem c1_no_table_witness :
    python_repl ⟨none, [], ⟨"", "", true, []⟩, [], [], ""⟩ "print(1)"
        (.ok "1\n" []) (.ok .pyNone) (fun _ => "p.png") (fun _ => .ok ())
      = (noTableMsg, ⟨none, [], ⟨"", "", true, []⟩, [], [], ""⟩) :=
  c1_no_table _ _ _ _ _ _ rfl

/-- C2: when `exec` raises, the result is exactly the fixed error prefix with
the stringified fault — independent of whatever text was buffered before the
fault, which is thereby discarded — and the plot directory is unchanged, so
no artifact file is created. -/
theorem c2_exec_fault (w : World) (code msg printed : String) (figs : List Nat)
    (evalR : Except String PyValue) (g : Nat → String) (s : Nat → Except String Unit)
    (d : DataFrame) (hdf : w.globalDf = some d) :
    (python_repl w code (.fault msg printed figs) evalR g s).1
        = "Error executing code: " ++ msg
    ∧ (python_repl w code (.fault msg printed figs) evalR g s).2.plotsDir = w.plotsDir
    ∧ ∀ printed2 figs2 evalR2,
        (python_repl w code (.fault msg printed2 figs2) evalR2 g s)
          = (python_repl w code (.fault msg printed figs) evalR g s) := by
  refine ⟨?_, ?_, ?_⟩ <;> simp [python_repl, hdf, setupFonts]

/-- Witness for C2 at a concrete division-by-zero fault with pending output. -/
theorem c2_exec_fault_witness :
    (python_repl ⟨some ⟨["a"], ["int64"], [[1]]⟩, [], ⟨"", "", true, []⟩, [], [], ""⟩
        "print(1)\n1/0" (.fault "division by zero" "1\n" []) (.ok .pyNone)
        (fun _ => "p.png") (fun _ => .ok ())).1
      = "Error executing code: division by zero" :=
  (c2_exec_fault _ _ _ _ _ _ _ _ ⟨["a"], ["int64"], [[1]]⟩ rfl).1

/-- C8: whenever `python_repl` reaches execution (a table is loaded), the
`finally: plt.close('all')` leaves no figure open on any path — success,
`exec` fault, or a fault while saving figures. -/
theorem c8_figures_closed (w : World) (code : String) (ex : ExecOutcome)
    (evalR : Except String PyValue) (g : Nat → String) (s : Nat → Except String Unit)
    (d : DataFrame) (hdf : w.globalDf = some d) :
    (python_repl w code ex evalR g s).2.mpl.openFigs = [] := by
  cases ex with
  | ok p f =>
    simp only [python_repl, hdf, replSuccess]
    split <;> simp
  | fault m p f => simp [python_repl, hdf]

/-- Witness for C8 at a concrete call with a figure left open by the snippet
and a faulting save. -/
theorem c8_figures_closed_witness :
    (python_repl ⟨some ⟨["a"], ["int64"], [[1]]⟩, [], ⟨"", "", true, []⟩, [], [], ""⟩
        "plt.plot()" (.ok "" [1]) (.ok .pyNone) (fun _ => "p.png")
        (fun _ => .error "disk full")).2.mpl.openFigs = [] :=
  c8_figures_closed _ _ _ _ _ _ ⟨["a"], ["int64"], [[1]]⟩ rfl

/-- C10: `python_repl` never rebinds the global table: for every snippet
behaviour and every outcome, the global `df` after the call is the binding it
was before — the executed code sees only the per-call namespace copy. -/
theorem c10_global_df_frame (w : World) (code : String) (ex : ExecOutcome)
    (evalR : Except String PyValue) (g : Nat → String) (s : Nat → Except String Unit) :
    (python_repl w code ex evalR g s).2.globalDf = w.globalDf := by
  cases h : w.globalDf with
  | none => simp [python_repl, h]
  | some d =>
    cases ex with
    | ok p f =>
      simp only [python_repl, h, replSuccess]
      split <;> simp [setupFonts, h]
    | fault m p f => simp [python_repl, h, setupFonts]

/-- C3: both load operations turn every failure into a textual error result
and leave the world — in particular the previously loaded table — untouched:
a nonexistent path yields the fixed not-found result, a parse failure and an
unsupported extension yield error results with the world unchanged, and for
every oracle behaviour the global binding is either untouched or replaced by
exactly the table of a successful parse. -/
theorem c3_load_atomicity (w : World) (path : String) (parse : Except String DataFrame)
    (sheetName : Option String) (e : ExcelData) :
    (path ∉ w.fs →
        load_csv w path parse = ("Error: File '" ++ path ++ "' not found.", w)
        ∧ load_excel w path sheetName e = ("Error: File '" ++ path ++ "' not found.", w))
    ∧ (path ∈ w.fs → ∀ msg,
        load_csv w path (.error msg) = ("Error loading CSV file: " ++ msg, w))
    ∧ (path ∈ w.fs → strLower (pathSuffix path) ∉ excelExts →
        load_excel w path sheetName e =
          ("Error: File '" ++ path ++ "' is not an Excel file. Supported extensions: .xlsx, .xls, .xlsm, .xlsb", w))
    ∧ (∀ err, excelParseArg e sheetName = .error err →
        (load_excel w path sheetName e).2 = w)
    ∧ ((load_csv w path parse).2 = w
        ∨ ∃ d, parse = .ok d ∧ (load_csv w path parse).2 = { w with globalDf := some d })
    ∧ ((load_excel w path sheetName e).2 = w
        ∨ ∃ d, excelParseArg e sheetName = .ok d
            ∧ (load_excel w path sheetName e).2 = { w with globalDf := some d }) := by
  refine ⟨?_, ?_, ?_, ?_, ?_, ?_⟩
  · intro h
    constructor <;> simp [load_csv, load_excel, h]
  · intro h msg
    simp [load_csv, h]
  · intro h hext
    simp [load_excel, h, hext]
  · intro err hp
    by_cases h1 : path ∈ w.fs
    · by_cases h2 : strLower (pathSuffix path) ∈ excelExts
      · simp only [load_excel, h1, h2, not_true_eq_false, if_false, hp]
        split <;> rfl
      · simp [load_excel, h1, h2]
    · simp [load_excel, h1]
  · by_cases h1 : path ∈ w.fs
    · cases parse with
      | error m => left; simp [load_csv, h1]
      | ok d => exact Or.inr ⟨d, rfl, by simp [load_csv, h1]⟩
    · left; simp [load_csv, h1]
  · by_cases h1 : path ∈ w.fs
    · by_cases h2 : strLower (pathSuffix path) ∈ excelExts
      · cases hp : excelParseArg e sheetName with
        | error err =>
          left
          simp only [load_excel, h1, h2, not_true_eq_false, if_false, hp]
          split <;> rfl
        | ok d =>
          refine Or.inr ⟨d, rfl, ?_⟩
          simp [load_excel, h1, h2, hp]
      · left; simp [load_excel, h1, h2]
    · left; simp [load_excel, h1]

/-- Witness for C3 at a concrete world, a missing path and a parse fault. -/
theorem c3_load_atomicity_witness :
    load_csv ⟨some ⟨["a"], ["int64"], [[1]]⟩, [], ⟨"", "", true, []⟩, ["/d/t.csv"], [], ""⟩
        "/d/missing.csv" (.ok ⟨["b"], ["int64"], [[2]]⟩)
      = ("Error: File '/d/missing.csv' not found.",
         ⟨some ⟨["a"], ["int64"], [[1]]⟩, [], ⟨"", "", true, []⟩, ["/d/t.csv"], [], ""⟩) :=
  ((c3_load_atomicity _ _ _ none ⟨["S1"], fun _ => .ok ⟨["b"], ["int64"], [[2]]⟩,
      .ok ⟨["b"], ["int64"], [[2]]⟩⟩).1 (by decide)).1

/-- C4: an existing Excel file asked for a sheet it does not have yields an
error result listing the file's actual sheet names, with the world — hence
the previously loaded table — unchanged. -/
theorem c4_missing_sheet (w : World) (path sheet : String) (e : ExcelData)
    (hfs : path ∈ w.fs)
    (hext : strLower (pathSuffix path) ∈ excelExts)
    (hsh : sheet ≠ "") (hns : sheet ∉ e.sheetNames) :
    load_excel w path (some sheet) e =
      ("Error: " ++ ("Worksheet named '" ++ sheet ++ "' not found")
         ++ "\nAvailable sheets: " ++ String.intercalate ", " e.sheetNames, w) := by
  simp [load_excel, hfs, hext, excelParseArg, ExcelData.readSheet, hns, hsh,
        LoadError.isWorksheetValueError, LoadError.toMsg]

/-- Witness for C4: a workbook with sheets `S1, S2` asked for sheet `Nope`. -/
theorem c4_missing_sheet_witness :
    load_excel ⟨some ⟨["a"], ["int64"], [[1]]⟩, [], ⟨"", "", true, []⟩, ["/d/book.xlsx"], [], ""⟩
        "/d/book.xlsx" (some "Nope")
        ⟨["S1", "S2"], fun _ => .ok ⟨["b"], ["int64"], [[2]]⟩, .ok ⟨["b"], ["int64"], [[2]]⟩⟩
      = ("Error: Worksheet named 'Nope' not found\nAvailable sheets: S1, S2",
         ⟨some ⟨["a"], ["int64"], [[1]]⟩, [], ⟨"", "", true, []⟩, ["/d/book.xlsx"], [], ""⟩) :=
  c4_missing_sheet _ _ _ _ (by decide) (by decide) (by decide) (by decide)

/-- The trailing evaluation appends nothing whenever it faults, exactly as
when it returns `None`. -/
theorem autoEvalOut_fault_eq_none (code msg : String) :
    autoEvalOut code (.error msg) = autoEvalOut code (.ok .pyNone) := by
  unfold autoEvalOut
  split <;> rfl

/-- With the heuristic declined, the trailing evaluation appends nothing for
any oracle behaviour. -/
theorem autoEvalOut_of_not_shouldAutoEval (code : String)
    (h : shouldAutoEval code = false) (evalR : Except String PyValue) :
    autoEvalOut code evalR = "" := by
  simp [autoEvalOut, h]

/-- C5: the trailing auto-evaluation fires exactly when the last non-empty
line of the snippet is non-empty, starts with none of the statement keywords
and holds no `=`; when it does not fire the result never consults the
evaluation oracle, and a fault of the evaluation is swallowed — the call
behaves exactly as if the expression had evaluated to `None`. -/
theorem c5_auto_eval_guard (w : World) (code printed : String) (figs : List Nat)
    (g : Nat → String) (s : Nat → Except String Unit) (d : DataFrame)
    (hdf : w.globalDf = some d) :
    (shouldAutoEval code = true ↔
       (lastNonEmptyLine code ≠ ""
        ∧ (∀ kw ∈ stmtKeywords, listStartsWith (lastNonEmptyLine code).data kw.data = false)
        ∧ (lastNonEmptyLine code).data.contains '=' = false))
    ∧ (shouldAutoEval code = false →
        ∀ e1 e2, python_repl w code (.ok printed figs) e1 g s
            = python_repl w code (.ok printed figs) e2 g s)
    ∧ (∀ msg, python_repl w code (.ok printed figs) (.error msg) g s
        = python_repl w code (.ok printed figs) (.ok .pyNone) g s) := by
  refine ⟨?_, ?_, ?_⟩
  · simp only [shouldAutoEval, Bool.and_eq_true, Bool.not_eq_true',
      List.any_eq_false, beq_eq_false_iff_ne, ne_eq, Bool.not_eq_true]
    tauto
  · intro h e1 e2
    have h1 := autoEvalOut_of_not_shouldAutoEval code h e1
    have h2 := autoEvalOut_of_not_shouldAutoEval code h e2
    simp only [python_repl, hdf, replSuccess, h1, h2]
  · intro msg
    have h1 := autoEvalOut_fault_eq_none code msg
    simp only [python_repl, hdf, replSuccess, h1]

/-- Witness for C5: a faulting trailing evaluation of `df.head()` leaves the
call indistinguishable from a `None` evaluation. -/
theorem c5_auto_eval_guard_witness :
    shouldAutoEval "df.head()" = true
    ∧ python_repl ⟨some ⟨["a"], ["int64"], [[1]]⟩, [], ⟨"", "", true, []⟩, [], [], ""⟩
          "df.head()" (.ok "" []) (.error "boom") (fun _ => "p.png") (fun _ => .ok ())
        = python_repl ⟨some ⟨["a"], ["int64"], [[1]]⟩, [], ⟨"", "", true, []⟩, [], [], ""⟩
          "df.head()" (.ok "" []) (.ok .pyNone) (fun _ => "p.png") (fun _ => .ok ()) :=
  ⟨by decide,
   (c5_auto_eval_guard _ _ _ _ _ _ ⟨["a"], ["int64"], [[1]]⟩ rfl).2.2 "boom"⟩

/-- Appending a non-empty string never yields the empty string. -/
theorem append_ne_empty_right (a b : String) (hb : b ≠ "") : a ++ b ≠ "" := by
  intro h
  apply hb
  have hd := congrArg String.data h
  rw [String.data_append] at hd
  exact String.ext (List.append_eq_nil.mp hd).2

/-- C6: a snippet whose final line is a bare expression evaluating to a
`DataFrame` gets that value auto-printed as its HTML table rendering, appended
to the captured output; with the final line an assignment (it holds `=`), the
heuristic declines and the result is the captured output alone — no
auto-printed value, for any behaviour of the evaluation oracle. -/
theorem c6_dataframe_html (w : World) (d0 d : DataFrame)
    (printed code code2 : String) (evalR2 : Except String PyValue)
    (g : Nat → String) (s : Nat → Except String Unit)
    (hdf : w.globalDf = some d0) (hopen : w.mpl.openFigs = [])
    (h1 : shouldAutoEval code = true)
    (h2 : (lastNonEmptyLine code2).data.contains '=' = true) :
    (python_repl w code (.ok printed []) (.ok (.pyDF d)) g s).1
        = printed ++ (d.to_html ++ "\n")
    ∧ (python_repl w code2 (.ok printed []) evalR2 g s).1
        = (if printed = "" then noOutputMsg else printed) := by
  have hne : printed ++ (d.to_html ++ "\n") ≠ "" :=
    append_ne_empty_right _ _ (append_ne_empty_right _ "\n" (by decide))
  constructor
  · simp only [python_repl, hdf, replSuccess, autoEvalOut, h1, if_true]
    simp [setupFonts, hopen, hne]
  · have hfalse : shouldAutoEval code2 = false := by
      simp only [shouldAutoEval]
      rw [h2]
      simp
    simp only [python_repl, hdf, replSuccess,
      autoEvalOut_of_not_shouldAutoEval code2 hfalse evalR2]
    simp [setupFonts, hopen, String.append_empty]

/-- Witness for C6: `df.head()` as the final line auto-prints the HTML table;
`x = df.head()` prints nothing. -/
theorem c6_dataframe_html_witness :
    (python_repl ⟨some ⟨["a"], ["int64"], [[1]]⟩, [], ⟨"", "", true, []⟩, [], [], ""⟩
        "df.head()" (.ok "" []) (.ok (.pyDF ⟨["a"], ["int64"], [[1]]⟩))
        (fun _ => "p.png") (fun _ => .ok ())).1
      = "" ++ (DataFrame.to_html ⟨["a"], ["int64"], [[1]]⟩ ++ "\n")
    ∧ (python_repl ⟨some ⟨["a"], ["int64"], [[1]]⟩, [], ⟨"", "", true, []⟩, [], [], ""⟩
        "x = df.head()" (.ok "" []) (.ok (.pyDF ⟨["a"], ["int64"], [[1]]⟩))
        (fun _ => "p.png") (fun _ => .ok ())).1
      = (if ("" : String) = "" then noOutputMsg else "") :=
  c6_dataframe_html _ _ _ _ "df.head()" "x = df.head()" _ _ _
    rfl rfl (by decide) (by decide)

/-- Decomposition of a successful `find?`: the found element splits the list,
satisfies the predicate, and everything before it fails the predicate. -/
theorem find?_eq_some_split {α : Type} (p : α → Bool) :
    ∀ (l : List α) (a : α), l.find? p = some a →
      ∃ l1 l2, l = l1 ++ a :: l2 ∧ p a = true ∧ ∀ b ∈ l1, p b = false := by
  intro l
  induction l with
  | nil => intro a h; simp at h
  | cons x xs ih =>
    intro a h
    by_cases hx : p x = true
    · rw [List.find?_cons_of_pos _ hx] at h
      cases h
      exact ⟨[], xs, rfl, hx, by simp⟩
    · have hx' : p x = false := by simpa using hx
      rw [List.find?_cons_of_neg _ (by simp [hx'])] at h
      obtain ⟨l1, l2, rfl, hpa, hall⟩ := ih a h
      refine ⟨x :: l1, l2, rfl, hpa, ?_⟩
      intro b hb
      rcases List.mem_cons.mp hb with hb | hb
      · exact hb ▸ hx'
      · exact hall b hb

/-- Every execution path keeps the font configuration chosen by the preamble
and the warning text it printed. -/
theorem python_repl_keeps_font_config (w : World) (code : String) (ex : ExecOutcome)
    (evalR : Except String PyValue) (g : Nat → String) (s : Nat → Except String Unit)
    (d : DataFrame) (hdf : w.globalDf = some d) :
    (python_repl w code ex evalR g s).2.mpl.fontFamily = (setupFonts w).mpl.fontFamily
    ∧ (python_repl w code ex evalR g s).2.mpl.unicodeMinus = false
    ∧ (python_repl w code ex evalR g s).2.realStdout = (setupFonts w).realStdout := by
  cases ex with
  | fault m p f => simp [python_repl, hdf, setupFonts]
  | ok p f =>
    simp only [python_repl, hdf, replSuccess]
    split <;> simp [setupFonts]

/-- C9: with a table loaded, the call sets the plotting font to the first
name of the fixed priority list that is among the available fonts — that
font is listed, available, and every name before it in the list is
unavailable — printing nothing; when none of the listed names is available
the font is the default `DejaVu Sans` and the warning is printed.  The
unicode-minus substitution ends up disabled in every case. -/
theorem c9_font_selection (w : World) (code : String) (ex : ExecOutcome)
    (evalR : Except String PyValue) (g : Nat → String) (s : Nat → Except String Unit)
    (d : DataFrame) (hdf : w.globalDf = some d) :
    (python_repl w code ex evalR g s).2.mpl.unicodeMinus = false
    ∧ (python_repl w code ex evalR g s).2.mpl.fontFamily
        = (pickFont w.availableFonts).getD "DejaVu Sans"
    ∧ (∀ f, pickFont w.availableFonts = some f →
        (python_repl w code ex evalR g s).2.mpl.fontFamily = f
        ∧ f ∈ w.availableFonts
        ∧ (∃ l1 l2, korean_fonts = l1 ++ f :: l2 ∧ ∀ f2 ∈ l1, f2 ∉ w.availableFonts)
        ∧ (python_repl w code ex evalR g s).2.realStdout = w.realStdout)
    ∧ (pickFont w.availableFonts = none →
        (python_repl w code ex evalR g s).2.mpl.fontFamily = "DejaVu Sans"
        ∧ (python_repl w code ex evalR g s).2.realStdout
            = w.realStdout ++ (koreanFontWarning ++ "\n")) := by
  obtain ⟨hf, hu, hr⟩ :=
    python_repl_keeps_font_config w code ex evalR g s d hdf
  refine ⟨hu, ?_, ?_, ?_⟩
  · rw [hf]; simp [setupFonts]
  · intro f hpf
    refine ⟨by rw [hf]; simp [setupFonts, hpf], ?_, ?_, ?_⟩
    · have := List.find?_some hpf
      simpa [List.elem_iff] using this
    · obtain ⟨l1, l2, hsplit, _, hall⟩ :=
        find?_eq_some_split _ korean_fonts f hpf
      refine ⟨l1, l2, hsplit, ?_⟩
      intro f2 hf2
      have := hall f2 hf2
      simpa [List.elem_iff] using this
    · rw [hr]; simp [setupFonts, hpf]
  · intro hnone
    constructor
    · rw [hf]; simp [setupFonts, hnone]
    · rw [hr]; simp [setupFonts, hnone]

/-- Witness for C9: with `Arial` and `NanumGothic` available, the call picks
`NanumGothic` (the first available name of the priority list). -/
theorem c9_font_selection_witness :
    (python_repl ⟨some ⟨["a"], ["int64"], [[1]]⟩, ["Arial", "NanumGothic"],
          ⟨"", "", true, []⟩, [], [], ""⟩
        "df" (.ok "" []) (.ok .pyNone) (fun _ => "p.png") (fun _ => .ok ())).2.mpl.fontFamily
      = "NanumGothic" :=
  ((c9_font_selection _ _ _ _ _ _ _ rfl).2.2.1 "NanumGothic" (by decide)).1

/-- A trailing evaluation returning `None` appends nothing. -/
theorem autoEvalOut_none (code : String) :
    autoEvalOut code (.ok .pyNone) = "" := by
  unfold autoEvalOut
  split <;> rfl

/-- When every save succeeds, the loop over `figs` starting at position `idx`
emits one reference per figure, in order, and appends exactly the generated
filenames to the directory. -/
theorem saveLoop_all_ok (g : Nat → String) (s : Nat → Except String Unit)
    (hs : ∀ i, s i = .ok ()) :
    ∀ (figs : List Nat) (idx : Nat) (dir : List String),
      saveLoop g s figs idx dir =
        (.ok ((List.range' idx figs.length).map (fun i => mkRef i (g i))),
         dir ++ (List.range' idx figs.length).map g) := by
  intro figs
  induction figs with
  | nil => intro idx dir; simp [saveLoop]
  | cons f rest ih =>
    intro idx dir
    simp only [saveLoop, hs idx]
    rw [ih (idx + 1) (dir ++ [g idx])]
    simp [List.length_cons, List.range'_succ idx rest.length 1]

/-- C7: a successful execution that left `n > 0` figures open (none were open
before) and whose saves all succeed returns the captured output, then a blank
line exactly when that output was non-empty, then the sentinel-wrapped block
holding exactly one reference line per figure in order; the filenames embedded
in the references are exactly the ones appended to the shared plot directory,
pairwise distinct whenever the generator repeats none, and every figure is
closed at the end. -/
theorem c7_visualization_block (w : World) (code printed : String) (figs : List Nat)
    (g : Nat → String) (s : Nat → Except String Unit) (d : DataFrame)
    (hdf : w.globalDf = some d) (hopen : w.mpl.openFigs = [])
    (hnn : figs ≠ []) (hs : ∀ i, s i = .ok ())
    (hnd : ((List.range figs.length).map g).Nodup) :
    (python_repl w code (.ok printed figs) (.ok .pyNone) g s).1
        = (if printed = "" then "" else printed ++ "\n\n")
          ++ "<!-- VISUALIZATION OUTPUT -->\n"
          ++ String.intercalate "\n"
              ((List.range figs.length).map (fun i => mkRef i (g i)))
          ++ "\n<!-- END VISUALIZATION OUTPUT -->"
    ∧ (python_repl w code (.ok printed figs) (.ok .pyNone) g s).2.plotsDir
        = w.plotsDir ++ (List.range figs.length).map g
    ∧ ((List.range figs.length).map g).Nodup
    ∧ (∀ i < figs.length,
        g i ∈ (python_repl w code (.ok printed figs) (.ok .pyNone) g s).2.plotsDir)
    ∧ (python_repl w code (.ok printed figs) (.ok .pyNone) g s).2.mpl.openFigs = [] := by
  have hlen : figs.length ≠ 0 := fun h => hnn (List.length_eq_zero.mp h)
  have hrefs :
      ((List.range' 0 figs.length).map (fun i => mkRef i (g i))).isEmpty = false := by
    simp [hlen]
  have hout2 : ∀ pre : String,
      pre ++ "<!-- VISUALIZATION OUTPUT -->\n"
        ++ String.intercalate "\n"
            ((List.range' 0 figs.length).map (fun i => mkRef i (g i)))
        ++ "\n<!-- END VISUALIZATION OUTPUT -->" ≠ "" := by
    intro pre
    exact append_ne_empty_right _ _ (by decide)
  have hcore :
      python_repl w code (.ok printed figs) (.ok .pyNone) g s
        = ((if printed = "" then "" else printed ++ "\n\n")
            ++ "<!-- VISUALIZATION OUTPUT -->\n"
            ++ String.intercalate "\n"
                ((List.range' 0 figs.length).map (fun i => mkRef i (g i)))
            ++ "\n<!-- END VISUALIZATION OUTPUT -->",
           { setupFonts w with
              plotsDir := w.plotsDir ++ (List.range' 0 figs.length).map g,
              mpl := { (setupFonts w).mpl with openFigs := [] } }) := by
    simp only [python_repl, hdf, replSuccess, autoEvalOut_none, String.append_empty]
    have hfigs : (setupFonts w).mpl.openFigs ++ figs = figs := by
      simp [setupFonts, hopen]
    rw [hfigs]
    have hne : figs.isEmpty = false := by simp [hnn]
    simp only [hne, Bool.false_eq_true, if_false]
    rw [saveLoop_all_ok g s hs figs 0 (setupFonts w).plotsDir]
    have hdir : (setupFonts w).plotsDir = w.plotsDir := rfl
    rw [hdir]
    simp only [hrefs, Bool.false_eq_true, if_false, if_neg (hout2 _)]
  rw [List.range_eq_range'] at hnd ⊢
  refine ⟨?_, ?_, hnd, ?_, ?_⟩
  · rw [hcore]
  · rw [hcore]
  · intro i hi
    rw [hcore]
    simp only []
    refine List.mem_append.mpr (Or.inr ?_)
    exact List.mem_map.mpr ⟨i, by simp [List.mem_range'_1, hi], rfl⟩
  · rw [hcore]

/-- Witness for C7: two figures yield exactly two reference lines between the
sentinels. -/
theorem c7_visualization_block_witness :
    (python_repl ⟨some ⟨["a"], ["int64"], [[1]]⟩, [], ⟨"", "", true, []⟩, [], [], ""⟩
        "plt.hist(df)" (.ok "" [1, 2]) (.ok .pyNone)
        (fun i => "plot_" ++ toString i ++ ".png") (fun _ => .ok ())).1
      = (if ("" : String) = "" then "" else "" ++ "\n\n")
        ++ "<!-- VISUALIZATION OUTPUT -->\n"
        ++ String.intercalate "\n"
            ((List.range ([1, 2] : List Nat).length).map
              (fun i => mkRef i ("plot_" ++ toString i ++ ".png")))
        ++ "\n<!-- END VISUALIZATION OUTPUT -->" :=
  (c7_visualization_block _ _ _ [1, 2] _ _ ⟨["a"], ["int64"], [[1]]⟩ rfl rfl
    (by decide) (fun _ => rfl) (by decide)).1
